import Mathlib

/-!
Verification of the real-time order-tracking subsystem of the completeecom
repository: the server-sent-events broadcaster and stream endpoint
(src/unnamed/part_000) and the client tracking hook
(src/hooks/use-real-time-tracking.ts, functions useRealTimeTracking and
useMultipleOrderTracking).

Modelling conventions:
- Timestamps are modelled as natural numbers (epoch milliseconds); the source
  carries them as ISO strings or Date objects but never does arithmetic on them
  beyond ordering, so ordering on Nat is the faithful abstraction.
- EventSource instances and setTimeout timers are identified by freshly
  allocated natural-number ids; the set of constructed-and-not-yet-closed
  EventSources is tracked explicitly in the session state so that statements
  about how many transports are open at an instant can be made.
- A ReadableStreamDefaultController is modelled as a buffer of written frames
  plus a flag saying whether enqueue throws (a closed/broken handle); a write
  is an Except value, and the try/catch in the source is modelled by catching
  that Except.
- React setState calls are modelled as functional record updates; callback
  props (onConnectionChange and friends) and console logging are side channels
  with no effect on the modelled state and are omitted.
-/

namespace Completeecom

/-- One entry of liveTracking.trackingHistory
(interface RealTimeTrackingData in use-real-time-tracking.ts). -/
structure TrackingHistoryEntry where
  status : String
  location : String
  timestamp : String
  remarks : Option String
deriving Repr, DecidableEq

/-- The liveTracking block of RealTimeTrackingData. -/
structure LiveTracking where
  status : String
  currentLocation : Option String
  estimatedDelivery : Option String
  trackingHistory : Option (List TrackingHistoryEntry)
deriving Repr, DecidableEq

/-- interface RealTimeTrackingData (use-real-time-tracking.ts, lines 13-32).
lastUpdated is an ISO timestamp in the source, modelled as Nat. -/
structure RealTimeTrackingData where
  orderId : String
  orderNumber : String
  status : String
  trackingNumber : Option String
  carrier : Option String
  liveTracking : Option LiveTracking
  lastUpdated : Nat
  hasNewUpdate : Bool
deriving Repr, DecidableEq

/-- The type tag of interface TrackingEvent (use-real-time-tracking.ts, line 7). -/
inductive EventType where
  | connected
  | tracking_update
  | status_change
  | heartbeat
  | error
  | order_update
deriving Repr, DecidableEq

/-- interface TrackingEvent. The source types data as any; only the
tracking_update payload shape (RealTimeTrackingData, the cast applied at
line 143) is relevant to the claims, so data is modelled at that shape. -/
structure TrackingEvent where
  type : EventType
  data : Option RealTimeTrackingData
  message : Option String
  timestamp : String
deriving Repr, DecidableEq

/-- The configuration a useRealTimeTracking call closes over: its two
identifier arguments and the options relevant to connection logic
(lines 44-57). -/
structure SessionConfig where
  orderId : Option String
  trackingNumber : Option String
  autoReconnect : Bool
  reconnectInterval : Nat
deriving Repr, DecidableEq

/-- maxReconnectAttempts (use-real-time-tracking.ts, line 67). -/
def maxReconnectAttempts : Nat := 5

/-- The mutable state of one Client Tracking Session: the useState cells
(trackingData, isConnected, error, lastUpdate) and the useRef cells
(eventSourceRef, reconnectTimeoutRef, reconnectAttempts), plus bookkeeping
that makes the claims statable: openTransports lists the ids of EventSources
constructed and not yet closed, scheduledDelays logs each delay passed to
setTimeout when a reconnect is scheduled, and closeCalls / clearCalls count
EventSource.close() and clearTimeout() invocations. -/
structure SessionState where
  eventSourceRef : Option Nat
  reconnectTimeoutRef : Option Nat
  reconnectAttempts : Nat
  isConnected : Bool
  error : Option String
  trackingData : Option RealTimeTrackingData
  lastUpdate : Option Nat
  openTransports : List Nat
  nextId : Nat
  nextTimerId : Nat
  scheduledDelays : List Nat
  closeCalls : Nat
  clearCalls : Nat
deriving Repr, DecidableEq

/-- The state of a freshly mounted session. -/
def initSession : SessionState where
  eventSourceRef := none
  reconnectTimeoutRef := none
  reconnectAttempts := 0
  isConnected := false
  error := none
  trackingData := none
  lastUpdate := none
  openTransports := []
  nextId := 0
  nextTimerId := 0
  scheduledDelays := []
  closeCalls := 0
  clearCalls := 0

/-- connect (use-real-time-tracking.ts, lines 108-119): if neither orderId nor
trackingNumber is present, set the error state and return; otherwise construct
a new EventSource and store it in eventSourceRef. Note that the source closes
nothing and cancels no timer here: the previous eventSourceRef value is simply
overwritten and any pending reconnect timeout is left pending. -/
def connect (cfg : SessionConfig) (s : SessionState) : SessionState :=
  if cfg.orderId = none ∧ cfg.trackingNumber = none then
    { s with error := some "Order ID or tracking number is required" }
  else
    { s with eventSourceRef := some s.nextId
             openTransports := s.nextId :: s.openTransports
             nextId := s.nextId + 1 }

/-- eventSource.onopen (lines 121-131): mark connected, clear the error,
reset the reconnect attempt counter. -/
def onopen (s : SessionState) : SessionState :=
  { s with isConnected := true, error := none, reconnectAttempts := 0 }

/-- eventSource.onerror (lines 190-212): mark disconnected and record the
error; if autoReconnect is on and fewer than maxReconnectAttempts attempts
have been made, increment the counter and schedule a reconnect after
reconnectInterval * (incremented counter) milliseconds. The EventSource is
not closed here. -/
def onerror (cfg : SessionConfig) (s : SessionState) : SessionState :=
  let s1 := { s with isConnected := false, error := some "Connection error" }
  if cfg.autoReconnect ∧ s1.reconnectAttempts < maxReconnectAttempts then
    let attempts := s1.reconnectAttempts + 1
    { s1 with reconnectAttempts := attempts
              reconnectTimeoutRef := some s1.nextTimerId
              nextTimerId := s1.nextTimerId + 1
              scheduledDelays :=
                s1.scheduledDelays ++ [cfg.reconnectInterval * attempts] }
  else
    s1

/-- disconnect (lines 226-239): close the EventSource held in the ref, if any,
and null the ref; clear the pending reconnect timeout, if any, and null the
ref; mark disconnected. Closing removes the referenced transport id from the
open set (a transport whose id is no longer in the ref is leaked, matching the
source). -/
def disconnect (s : SessionState) : SessionState :=
  let s1 :=
    match s.eventSourceRef with
    | some esId =>
        { s with openTransports := s.openTransports.erase esId
                 eventSourceRef := none
                 closeCalls := s.closeCalls + 1 }
    | none => s
  let s2 :=
    match s1.reconnectTimeoutRef with
    | some _ =>
        { s1 with reconnectTimeoutRef := none
                  clearCalls := s1.clearCalls + 1 }
    | none => s1
  { s2 with isConnected := false }

/-- The body of the reconnect setTimeout callback (lines 204-208):
disconnect() then connect(). -/
def fireReconnect (cfg : SessionConfig) (s : SessionState) : SessionState :=
  connect cfg (disconnect s)

/-- eventSource.onmessage (lines 133-188), restricted to the branches that
change session state: tracking_update replaces trackingData wholesale with the
event payload and sets lastUpdate to the current time; error records the event
message (or the default) in the error state; the remaining branches only log
or fire callbacks. now is the value of new Date() at receipt. -/
def handleMessage (e : TrackingEvent) (now : Nat) (s : SessionState) :
    SessionState :=
  match e.type with
  | EventType.tracking_update =>
      { s with trackingData := e.data, lastUpdate := some now }
  | EventType.error =>
      { s with error := some (e.message.getD "Unknown error") }
  | _ => s

/-- A session configuration with an orderId present, auto-reconnect on, and
the given reconnect interval. -/
def mkCfg (R : Nat) : SessionConfig where
  orderId := some "o"
  trackingNumber := none
  autoReconnect := true
  reconnectInterval := R

/-- n consecutive transport failures on a freshly connected session: connect,
transport opens, then onerror fires n times with no intervening open. -/
def consecutiveFailures (cfg : SessionConfig) : Nat → SessionState
  | 0 => onopen (connect cfg initSession)
  | n + 1 => onerror cfg (consecutiveFailures cfg n)

/-- One subscriber of the in-memory broadcaster (type Client in
src/unnamed/part_000): its allocated id and its
ReadableStreamDefaultController, modelled as a flag saying whether enqueue
throws together with the list of frames successfully written so far. -/
structure Client where
  id : Nat
  broken : Bool
  buffer : List String
deriving Repr, DecidableEq

/-- controller.enqueue: appends the frame to the handle's output, or throws
when the handle is closed/broken. -/
def enqueue (c : Client) (msg : String) : Except String Client :=
  if c.broken then Except.error "enqueue failed"
  else Except.ok { c with buffer := c.buffer ++ [msg] }

/-- One write of emitOrderEvent's forEach body
(src/unnamed/part_000, line 57): try to enqueue, catch and swallow any
throw, leaving the subscriber unchanged. -/
def tryEnqueue (msg : String) (c : Client) : Client :=
  match enqueue c msg with
  | Except.ok c2 => c2
  | Except.error _ => c

/-- The SSE wire framing built by emitOrderEvent (line 54). The payload
argument stands for the JSON.stringify output of the payload object. -/
def frameEvent (t : String) (payload : String) : String :=
  "event: " ++ t ++ "\ndata: " ++ payload ++ "\n\n"

/-- emitOrderEvent (src/unnamed/part_000, lines 53-59): serialize the event
once and write it to every registered subscriber, each write wrapped in its
own try/catch. The result is an Except so that the absence of a propagated
exception is part of the statement: the function body never throws, so the
result is always ok. -/
def emitOrderEvent (t : String) (payload : String) (cs : List Client) :
    Except String (List Client) :=
  Except.ok (cs.map (tryEnqueue (frameEvent t payload)))

/-- The query parameters of a request to the stream endpoint. -/
structure StreamRequest where
  orderId : Option String
  trackingNumber : Option String
deriving Repr, DecidableEq

/-- The response of the stream endpoint GET handler: either an open
event-stream response or a pre-stream JSON error response
(createErrorResponse). -/
inductive GetResponse where
  | stream
  | errorResponse (message : String) (status : Nat)
deriving Repr, DecidableEq

/-- The module-level broadcaster state of src/unnamed/part_000: the clients
array and the clientSeq counter (lines 10-11, clientSeq starts at 1). -/
structure ServerState where
  clients : List Client
  clientSeq : Nat
deriving Repr, DecidableEq

/-- The initial greeting frame written on stream start (line 20). -/
def pingConnected : String := "event: ping\ndata: connected\n\n"

/-- GET (src/unnamed/part_000, lines 13-50): the handler never reads the
request's query parameters; for every request it allocates a client id,
pushes a subscriber with a live controller onto the clients array, writes the
initial ping frame, and returns the stream response. The heartbeat interval
and abort cleanup are registered inside start and do not affect the response
or the registration. -/
def GET (request : StreamRequest) (st : ServerState) :
    GetResponse × ServerState :=
  let client : Client := { id := st.clientSeq, broken := false
                           buffer := [pingConnected] }
  (GetResponse.stream,
   { clients := st.clients ++ [client], clientSeq := st.clientSeq + 1 })

/-- The connections map of useMultipleOrderTracking
(use-real-time-tracking.ts, line 284), as an insertion-ordered association
list: the spread update in handleConnectionChange (lines 293-298) replaces
the value in place when the key exists and appends otherwise. -/
def setConnection (connections : List (String × Bool)) (orderId : String)
    (connected : Bool) : List (String × Bool) :=
  if connections.any (fun p => p.1 = orderId) then
    connections.map (fun p => if p.1 = orderId then (orderId, connected) else p)
  else
    connections ++ [(orderId, connected)]

/-- Apply a sequence of connection-change callback reports in order. -/
def applyReports (reports : List (String × Bool))
    (connections : List (String × Bool)) : List (String × Bool) :=
  reports.foldl (fun m r => setConnection m r.1 r.2) connections

/-- isAnyConnected (line 311): Object.values(connections).some(Boolean). -/
def isAnyConnected (connections : List (String × Bool)) : Bool :=
  (connections.map Prod.snd).any (fun b => b)

/-- allConnected (line 312): Object.values(connections).every(Boolean). -/
def allConnected (connections : List (String × Bool)) : Bool :=
  (connections.map Prod.snd).all (fun b => b)

/-- The initial connections map of a useMultipleOrderTracking call
(line 284, useState({})): empty regardless of the orderIds argument. -/
def multiInit (orderIds : List String) : List (String × Bool) := []

/-- A configuration carrying neither orderId nor trackingNumber. -/
def cfgNoKeys : SessionConfig where
  orderId := none
  trackingNumber := none
  autoReconnect := true
  reconnectInterval := 5000

/-- A sample tracking_update payload placing the shipment in Delhi. -/
def payloadDelhi : RealTimeTrackingData where
  orderId := "o1"
  orderNumber := "1001"
  status := "shipped"
  trackingNumber := some "T1"
  carrier := some "BlueDart"
  liveTracking := some
    { status := "in_transit", currentLocation := some "Delhi",
      estimatedDelivery := none, trackingHistory := none }
  lastUpdated := 20
  hasNewUpdate := true

/-- A sample tracking_update payload placing the shipment in Mumbai, with an
earlier lastUpdated timestamp than payloadDelhi. -/
def payloadMumbai : RealTimeTrackingData where
  orderId := "o1"
  orderNumber := "1001"
  status := "shipped"
  trackingNumber := some "T1"
  carrier := some "BlueDart"
  liveTracking := some
    { status := "in_transit", currentLocation := some "Mumbai",
      estimatedDelivery := none, trackingHistory := none }
  lastUpdated := 10
  hasNewUpdate := true

/-- A tracking_update event carrying payloadDelhi. -/
def updateEventDelhi : TrackingEvent where
  type := EventType.tracking_update
  data := some payloadDelhi
  message := none
  timestamp := "a"

/-- A tracking_update event carrying payloadMumbai. -/
def updateEventMumbai : TrackingEvent where
  type := EventType.tracking_update
  data := some payloadMumbai
  message := none
  timestamp := "b"

/-- C1: the claim says connect() closes any existing transport and cancels any
pending scheduled reconnect before opening a new one, so that at most one
EventSource is open at any instant. The code does neither: after a session
connects, the transport opens, and a transport error schedules a reconnect,
a further connect() call (for example visibility-triggered) opens a second
EventSource while the first is still open and leaves the reconnect timer
pending, so two transports are open at once and the first is leaked. -/
theorem connect_opens_second_transport :
    ((connect (mkCfg 5000)
        (onerror (mkCfg 5000)
          (onopen (connect (mkCfg 5000) initSession)))).openTransports).length
        = 2 ∧
    (connect (mkCfg 5000)
        (onerror (mkCfg 5000)
          (onopen (connect (mkCfg 5000) initSession)))).reconnectTimeoutRef
        = some 0 ∧
    ((onerror (mkCfg 5000)
        (onopen (connect (mkCfg 5000) initSession))).openTransports).length
        = 1 := by
  decide

/-- C2 counterexample: the claim says a subscription request supplying neither
orderId nor trackingNumber is rejected with an error response before any
event-stream transport is opened and no subscriber is registered. On the
request with both keys absent, GET returns the stream response and registers
one subscriber whose handle has already received the initial ping frame. -/
theorem stream_opens_without_keys :
    (GET { orderId := none, trackingNumber := none }
        { clients := [], clientSeq := 1 }).1 = GetResponse.stream ∧
    ((GET { orderId := none, trackingNumber := none }
        { clients := [], clientSeq := 1 }).2.clients).length = 1 ∧
    ((GET { orderId := none, trackingNumber := none }
        { clients := [], clientSeq := 1 }).2.clients).map Client.buffer
      = [[pingConnected]] := by
  decide

/-- C2 amended: the GET handler of the stream endpoint performs no key
validation at all: for every request, with or without orderId or
trackingNumber, it opens the stream and registers exactly one new subscriber
(with the initial ping frame written), never returning an error response. -/
theorem stream_always_opens (request : StreamRequest) (st : ServerState) :
    (GET request st).1 = GetResponse.stream ∧
    ((GET request st).2.clients).length = st.clients.length + 1 ∧
    ((GET request st).2.clients).getLast? =
      some { id := st.clientSeq, broken := false, buffer := [pingConnected] } := by
  refine ⟨rfl, ?_, ?_⟩
  · simp [GET]
  · simp [GET]

/-- C3: with auto-reconnect enabled and reconnectInterval R, the Nth
consecutive transport failure (N = 1..5) schedules a reconnect with delay
exactly R * N, and a 6th consecutive failure schedules nothing: the delay log,
the pending-timer slot and the timer allocation counter are all unchanged by
the 6th failure. -/
theorem backoff_schedule (R n : Nat) (h1 : 1 ≤ n) (h2 : n ≤ 5) :
    (consecutiveFailures (mkCfg R) n).scheduledDelays =
      (List.range n).map (fun i => R * (i + 1)) ∧
    (consecutiveFailures (mkCfg R) 6).scheduledDelays =
      (consecutiveFailures (mkCfg R) 5).scheduledDelays ∧
    (consecutiveFailures (mkCfg R) 6).reconnectTimeoutRef =
      (consecutiveFailures (mkCfg R) 5).reconnectTimeoutRef ∧
    (consecutiveFailures (mkCfg R) 6).nextTimerId =
      (consecutiveFailures (mkCfg R) 5).nextTimerId := by
  refine ⟨?_, ?_, ?_, ?_⟩ <;>
    [skip;
     simp [consecutiveFailures, onerror, onopen, connect, initSession, mkCfg,
       maxReconnectAttempts];
     simp [consecutiveFailures, onerror, onopen, connect, initSession, mkCfg,
       maxReconnectAttempts];
     simp [consecutiveFailures, onerror, onopen, connect, initSession, mkCfg,
       maxReconnectAttempts]]
  interval_cases n <;>
    simp [consecutiveFailures, onerror, onopen, connect, initSession, mkCfg,
      maxReconnectAttempts, List.range_succ]

/-- C3 witness: at R = 7 and N = 3 the first three scheduled delays are
7, 14, 21 and the 6th failure schedules nothing. -/
theorem backoff_schedule_witness :
    1 ≤ 3 ∧ 3 ≤ 5 ∧
    ((consecutiveFailures (mkCfg 7) 3).scheduledDelays =
        (List.range 3).map (fun i => 7 * (i + 1)) ∧
      (consecutiveFailures (mkCfg 7) 6).scheduledDelays =
        (consecutiveFailures (mkCfg 7) 5).scheduledDelays ∧
      (consecutiveFailures (mkCfg 7) 6).reconnectTimeoutRef =
        (consecutiveFailures (mkCfg 7) 5).reconnectTimeoutRef ∧
      (consecutiveFailures (mkCfg 7) 6).nextTimerId =
        (consecutiveFailures (mkCfg 7) 5).nextTimerId) :=
  ⟨by decide, by decide, backoff_schedule 7 3 (by decide) (by decide)⟩

/-- C4: emitOrderEvent on a subscriber list holding a healthy S1 and an S2
whose handle throws on write delivers the framed event to S1, leaves S2
unchanged, and returns ok to the caller; moreover it returns ok on every
subscriber list, so S2's write failure never propagates. -/
theorem emit_isolated (t payload : String) (s1 s2 : Client)
    (h1 : s1.broken = false) (h2 : s2.broken = true) :
    emitOrderEvent t payload [s1, s2] =
      Except.ok [{ s1 with buffer := s1.buffer ++ [frameEvent t payload] }, s2] ∧
    ∀ cs : List Client, ∃ cs2, emitOrderEvent t payload cs = Except.ok cs2 := by
  constructor
  · simp [emitOrderEvent, tryEnqueue, enqueue, h1, h2]
  · exact fun cs => ⟨cs.map (tryEnqueue (frameEvent t payload)), rfl⟩

/-- C4 witness: concrete broadcast over one healthy and one broken
subscriber. -/
theorem emit_isolated_witness :
    (⟨1, false, []⟩ : Client).broken = false ∧
    (⟨2, true, []⟩ : Client).broken = true ∧
    (emitOrderEvent "updated" "p" [⟨1, false, []⟩, ⟨2, true, []⟩] =
      Except.ok
        [{ (⟨1, false, []⟩ : Client) with
            buffer := ([] : List String) ++ [frameEvent "updated" "p"] },
          ⟨2, true, []⟩] ∧
      ∀ cs : List Client, ∃ cs2,
        emitOrderEvent "updated" "p" cs = Except.ok cs2) :=
  ⟨rfl, rfl, emit_isolated "updated" "p" ⟨1, false, []⟩ ⟨2, true, []⟩ rfl rfl⟩

/-- C5: connect() with neither orderId nor trackingNumber sets the validation
error message and returns before constructing an EventSource: the open
transport set, the id allocator, the transport ref and the connected flag are
all untouched, so a disconnected session stays disconnected. -/
theorem connect_validation (cfg : SessionConfig) (s : SessionState)
    (h1 : cfg.orderId = none) (h2 : cfg.trackingNumber = none) :
    connect cfg s =
      { s with error := some "Order ID or tracking number is required" } ∧
    (connect cfg s).openTransports = s.openTransports ∧
    (connect cfg s).nextId = s.nextId ∧
    (connect cfg s).eventSourceRef = s.eventSourceRef ∧
    (connect cfg s).isConnected = s.isConnected := by
  refine ⟨?_, ?_, ?_, ?_, ?_⟩ <;> simp [connect, h1, h2]

/-- C5 witness: the concrete keyless configuration on the fresh session. -/
theorem connect_validation_witness :
    cfgNoKeys.orderId = none ∧
    cfgNoKeys.trackingNumber = none ∧
    (connect cfgNoKeys initSession =
      { initSession with
          error := some "Order ID or tracking number is required" } ∧
      (connect cfgNoKeys initSession).openTransports =
        initSession.openTransports ∧
      (connect cfgNoKeys initSession).nextId = initSession.nextId ∧
      (connect cfgNoKeys initSession).eventSourceRef =
        initSession.eventSourceRef ∧
      (connect cfgNoKeys initSession).isConnected =
        initSession.isConnected) :=
  ⟨rfl, rfl, connect_validation cfgNoKeys initSession rfl rfl⟩

/-- C6 counterexample: the claim says the lastUpdated timestamp of the held
Tracking State is monotonically non-decreasing across wholesale replacements.
But the state's lastUpdated field is taken verbatim from each event payload:
a first tracking_update carrying lastUpdated = 20 followed by a second
carrying lastUpdated = 10 leaves the held state with lastUpdated 10 < 20,
a strict decrease from one replacement to the next. -/
theorem trackingData_lastUpdated_decreases :
    ((handleMessage updateEventDelhi 100 initSession).trackingData).map
        RealTimeTrackingData.lastUpdated = some 20 ∧
    ((handleMessage updateEventMumbai 200
        (handleMessage updateEventDelhi 100 initSession)).trackingData).map
        RealTimeTrackingData.lastUpdated = some 10 ∧
    (10 : Nat) < 20 := by
  decide

/-- C6 amended: on each tracking_update the session sets its lastUpdate cell
to the receive time, so lastUpdate (not the payload's lastUpdated field) is
monotonically non-decreasing across replacements whenever receive times are
non-decreasing, while the held Tracking State itself is replaced wholesale by
each payload. -/
theorem lastUpdate_receive_time (e1 e2 : TrackingEvent) (t1 t2 : Nat)
    (s : SessionState) (h1 : e1.type = EventType.tracking_update)
    (h2 : e2.type = EventType.tracking_update) (ht : t1 ≤ t2) :
    (handleMessage e1 t1 s).lastUpdate = some t1 ∧
    (handleMessage e2 t2 (handleMessage e1 t1 s)).lastUpdate = some t2 ∧
    (∀ u v, (handleMessage e1 t1 s).lastUpdate = some u →
      (handleMessage e2 t2 (handleMessage e1 t1 s)).lastUpdate = some v →
      u ≤ v) ∧
    (handleMessage e2 t2 (handleMessage e1 t1 s)).trackingData = e2.data := by
  refine ⟨?_, ?_, ?_, ?_⟩
  · simp [handleMessage, h1]
  · simp [handleMessage, h1, h2]
  · intro u v hu hv
    simp [handleMessage, h1, h2] at hu hv
    omega
  · simp [handleMessage, h1, h2]

/-- C6 amended witness: two concrete tracking_update events received at times
100 and 200. -/
theorem lastUpdate_receive_time_witness :
    updateEventDelhi.type = EventType.tracking_update ∧
    updateEventMumbai.type = EventType.tracking_update ∧
    (100 : Nat) ≤ 200 ∧
    ((handleMessage updateEventDelhi 100 initSession).lastUpdate = some 100 ∧
      (handleMessage updateEventMumbai 200
        (handleMessage updateEventDelhi 100 initSession)).lastUpdate =
        some 200 ∧
      (∀ u v,
        (handleMessage updateEventDelhi 100 initSession).lastUpdate =
          some u →
        (handleMessage updateEventMumbai 200
          (handleMessage updateEventDelhi 100 initSession)).lastUpdate =
          some v →
        u ≤ v) ∧
      (handleMessage updateEventMumbai 200
        (handleMessage updateEventDelhi 100 initSession)).trackingData =
        updateEventMumbai.data) :=
  ⟨rfl, rfl, by decide,
    lastUpdate_receive_time updateEventDelhi updateEventMumbai 100 200
      initSession rfl rfl (by decide)⟩

/-- C7: after two consecutive tracking_update events the held Tracking State
equals the second event's payload exactly — setTrackingData replaces the
whole object, so no field of the first payload survives. -/
theorem wholesale_replace (e1 e2 : TrackingEvent) (t1 t2 : Nat)
    (s : SessionState) (h1 : e1.type = EventType.tracking_update)
    (h2 : e2.type = EventType.tracking_update) :
    (handleMessage e2 t2 (handleMessage e1 t1 s)).trackingData = e2.data := by
  simp [handleMessage, h1, h2]

/-- C7 witness: the two sample events differ in liveTracking.currentLocation
(Delhi then Mumbai); after both are processed the held state is exactly the
second event's payload. -/
theorem wholesale_replace_witness :
    updateEventDelhi.type = EventType.tracking_update ∧
    updateEventMumbai.type = EventType.tracking_update ∧
    (handleMessage updateEventMumbai 200
        (handleMessage updateEventDelhi 100 initSession)).trackingData =
      updateEventMumbai.data :=
  ⟨rfl, rfl,
    wholesale_replace updateEventDelhi updateEventMumbai 100 200 initSession
      rfl rfl⟩

/-- C8: with recorded connection flags A = true and B = false, isAnyConnected
is true and allConnected is false; over zero order ids the connections map
stays empty, so allConnected is vacuously true and isAnyConnected is false. -/
theorem aggregator_logic :
    isAnyConnected
        (setConnection (setConnection (multiInit ["A", "B"]) "A" true)
          "B" false) = true ∧
    allConnected
        (setConnection (setConnection (multiInit ["A", "B"]) "A" true)
          "B" false) = false ∧
    allConnected (multiInit []) = true ∧
    isAnyConnected (multiInit []) = false := by
  decide

/-- C9: disconnect() on an already-disconnected session (both the transport
ref and the reconnect-timer ref are null) only re-asserts the disconnected
flag: it performs no close() and no clearTimeout(), and a second call yields
the same state as the first, so the operation is idempotent and cannot
double-cancel. -/
theorem disconnect_idempotent (s : SessionState)
    (h1 : s.eventSourceRef = none) (h2 : s.reconnectTimeoutRef = none) :
    disconnect (disconnect s) = disconnect s ∧
    disconnect s = { s with isConnected := false } ∧
    (disconnect s).closeCalls = s.closeCalls ∧
    (disconnect s).clearCalls = s.clearCalls := by
  have hd : disconnect s = { s with isConnected := false } := by
    simp [disconnect, h1, h2]
  refine ⟨?_, hd, ?_, ?_⟩
  · rw [hd]
    simp [disconnect, h1, h2]
  · rw [hd]
  · rw [hd]

/-- C9 witness: the fresh session is already disconnected; disconnecting it
twice changes nothing beyond the flag and performs no cancellation. -/
theorem disconnect_idempotent_witness :
    initSession.eventSourceRef = none ∧
    initSession.reconnectTimeoutRef = none ∧
    (disconnect (disconnect initSession) = disconnect initSession ∧
      disconnect initSession = { initSession with isConnected := false } ∧
      (disconnect initSession).closeCalls = initSession.closeCalls ∧
      (disconnect initSession).clearCalls = initSession.clearCalls) :=
  ⟨rfl, rfl, disconnect_idempotent initSession rfl rfl⟩

/-- C10: the connections map of an aggregator starts empty no matter which
order ids were passed, so before any child session reports, allConnected is
vacuously true and isAnyConnected is false even over a non-empty id list;
after only the first id reports connected, allConnected is already true —
the aggregates range over reported ids only — and indeed the evolution of
the map is independent of the id list entirely. -/
theorem aggregator_over_reported (orderIds : List String)
    (h : orderIds ≠ []) :
    allConnected (multiInit orderIds) = true ∧
    isAnyConnected (multiInit orderIds) = false ∧
    allConnected
        (setConnection (multiInit orderIds) (orderIds.head h) true) = true ∧
    isAnyConnected
        (setConnection (multiInit orderIds) (orderIds.head h) true) = true ∧
    (∀ orderIds2 reports,
      applyReports reports (multiInit orderIds) =
        applyReports reports (multiInit orderIds2)) :=
  ⟨rfl, rfl, rfl, rfl, fun _ _ => rfl⟩

/-- C10 witness: the two-order aggregator before any report, and after only
the first order reports connected. -/
theorem aggregator_over_reported_witness :
    (["A", "B"] : List String) ≠ [] ∧
    (allConnected (multiInit ["A", "B"]) = true ∧
      isAnyConnected (multiInit ["A", "B"]) = false ∧
      allConnected
          (setConnection (multiInit ["A", "B"])
            ((["A", "B"] : List String).head (by decide)) true) = true ∧
      isAnyConnected
          (setConnection (multiInit ["A", "B"])
            ((["A", "B"] : List String).head (by decide)) true) = true ∧
      (∀ orderIds2 reports,
        applyReports reports (multiInit ["A", "B"]) =
          applyReports reports (multiInit orderIds2))) :=
  ⟨by decide, aggregator_over_reported ["A", "B"] (by decide)⟩

end Completeecom
